import Mathlib

/-!
Shallow embedding of the supervised command-execution core of `vben-app`
(`src/src-tauri/src/winsw.rs` and `src/src-tauri/src/scoop.rs`).

Effectful Rust code is modelled by explicit state passing:
* the process environment (`std::env::vars` / `std::env::var`) is a map
  `String → Option String` passed in as a parameter;
* filesystem existence checks (`Path::exists`) are a predicate
  `String → Bool`;
* spawning an external process is mediated by an oracle that says, for a
  given command, how the spawned process would behave (`ProcBehavior`:
  how long it runs, its wait outcome, its captured output); every spawn
  performed by a function is recorded in a returned `SpawnEvent` list,
  together with the fate of the child (ran to completion, killed and
  reaped on timeout, or abandoned still running when the wait future is
  dropped);
* the monotonic clock (`Instant`) is a `Nat` field `now` of the world
  state, and `Instant::elapsed` is truncated subtraction `now - then`.
-/

namespace VbenApp

/-- How a spawned child process ended up from the supervisor's point of
view: it was waited to its natural exit, it was killed and then reaped
after a timeout, or the supervisor dropped the wait while the process was
still running (tokio child processes are not killed on drop). -/
inductive ChildFate where
  | ranToCompletion
  | killedAndReaped
  | abandonedRunning
deriving DecidableEq, Repr

/-- Record of one spawned process: the program, its argument list and the
fate of the child. -/
structure SpawnEvent where
  program : String
  args : List String
  fate : ChildFate
deriving DecidableEq, Repr

/-- Behaviour an external process would exhibit when spawned: the number
of seconds it runs before the wait resolves, the wait outcome (an OS
error message, or an exit status where `none` models termination without
a code), and the bytes it writes to stdout and stderr. -/
structure ProcBehavior where
  duration : Nat
  result : Except String (Option Int)
  stdout : String
  stderr : String
deriving Repr

/-- Rust `ExitStatus::success()`: true exactly for exit code `0`;
termination without a code is not success. -/
def statusSuccess : Option Int → Bool
  | some 0 => true
  | _ => false

/-- Point update of an environment map (`HashMap::insert`). -/
def envInsert (m : String → Option String) (k v : String) : String → Option String :=
  fun x => if x = k then some v else m x

/-- Membership test of an environment map (`HashMap::contains_key`). -/
def envContains (m : String → Option String) (k : String) : Bool :=
  (m k).isSome

/-- Substring containment, `str::contains`, for a non-empty needle. -/
def strContains (s sub : String) : Bool :=
  (s.splitOn sub).length > 1

/-- Rust `str::trim`: strip leading and trailing whitespace. Defined
over the character list so that it computes by kernel reduction. -/
def strTrim (s : String) : String :=
  ⟨((s.data.dropWhile Char.isWhitespace).reverse.dropWhile Char.isWhitespace).reverse⟩

/-- Rust `str::to_lowercase`, restricted to the ASCII mapping the
action names exercise. Defined over the character list so that it
computes by kernel reduction. -/
def strToLower (s : String) : String :=
  ⟨s.data.map Char.toLower⟩

/-- Rust `str::eq_ignore_ascii_case`. -/
def eqIgnoreAsciiCase (a b : String) : Bool :=
  strToLower a == strToLower b

namespace Winsw

def DEFAULT_TIMEOUT_SECS : Nat := 30

def DEFAULT_WINSW_PATH : String := "winsw.exe"

/-- Allow-list of WinSW actions (`ALLOWED_ACTIONS` in `winsw.rs`). -/
def ALLOWED_ACTIONS : List String :=
  ["install", "uninstall", "start", "stop", "restart", "restart!", "status", "refresh"]

/-- Error taxonomy of the WinSW module (`WinswError` in `winsw.rs`). -/
inductive WinswError where
  | UnsupportedAction (action : String)
  | ConfigRequired (action : String)
  | SpawnFailed (msg : String)
  | WaitFailed (msg : String)
  | Timeout (secs : Nat)
  | ConfigNotFound (path : String)
deriving DecidableEq, Repr

/-- Display strings of `WinswError` (the `thiserror` format strings). -/
def WinswError.display : WinswError → String
  | .UnsupportedAction a => "不支持的 WinSW 操作: " ++ a
  | .ConfigRequired a => "命令 '" ++ a ++ "' 需要提供配置文件路径 (req.config)"
  | .SpawnFailed m => "无法启动 WinSW: " ++ m
  | .WaitFailed m => "等待 WinSW 输出失败: " ++ m
  | .Timeout s => "WinSW 操作超时 (" ++ toString s ++ "s)"
  | .ConfigNotFound p => "配置文件不存在: " ++ p

/-- Request payload of a `winsw_action` call (`ActionReq`). -/
structure ActionReq where
  winsw_path : Option String
  config : Option String
  timeout_seconds : Option Nat
  env_vars : Option (List (String × String))

/-- Outward-facing response of the WinSW module (`ActionResp`). -/
structure ActionResp where
  ok : Bool
  stdout : Option String
  stderr : Option String
  code : Int
  error : Option String
deriving DecidableEq, Repr

/-- The `ActionResp::success` constructor: `ok` is hard-wired to `true`. -/
def ActionResp.success (stdout stderr : Option String) (code : Int) : ActionResp :=
  { ok := true, stdout := stdout, stderr := stderr, code := code, error := none }

/-- The `ActionResp::failure` constructor. -/
def ActionResp.failure (code : Int) (error : String) : ActionResp :=
  { ok := false, stdout := none, stderr := none, code := code, error := some error }

/-- Which actions need a configuration file (`requires_config`): the
`matches!` arm lists every action of the allow-list. -/
def requires_config (action : String) : Bool :=
  action = "install" || action = "uninstall" || action = "start" || action = "stop" ||
    action = "restart" || action = "restart!" || action = "status" || action = "refresh"

/-- Validation and normalisation of the action name (`validate_action`):
trim, lower-case, then check membership in the allow-list. -/
def validate_action (action : String) : Except WinswError String :=
  let action_lc := strToLower (strTrim action)
  if !(ALLOWED_ACTIONS.contains action_lc) then
    .error (.UnsupportedAction action)
  else
    .ok action_lc

/-- Argument-list assembly (`build_command_args`): the action token, then
- when the action requires a config - the config path after an existence
check. `fs` is the filesystem existence predicate (`Path::exists`). -/
def build_command_args (fs : String → Bool) (action : String) (config : Option String) :
    Except WinswError (List String) :=
  let args := [action]
  if requires_config action then
    match config with
    | some cfg =>
      if !(fs cfg) then .error (.ConfigNotFound cfg)
      else .ok (args ++ [cfg])
    | none => .error (.ConfigRequired action)
  else
    .ok args

/-- Windows system paths appended to PATH by the composer. -/
def system_paths : List String :=
  ["C:\\Windows\\System32", "C:\\Windows", "C:\\Windows\\System32\\Wbem",
    "C:\\Windows\\System32\\WindowsPowerShell\\v1.0"]

/-- Environment composer of the WinSW module (`get_enhanced_env`):
starting from the inherited process environment `sysEnv`, appends missing
system directories to PATH, re-reads TEMP and TMP from the process
environment when the map lacks them, inserts the literal `C:\Windows`
for a missing SystemRoot, and finally applies the caller's custom
variables, which override everything. -/
def get_enhanced_env (sysEnv : String → Option String)
    (custom_env : Option (List (String × String))) : String → Option String :=
  let env := sysEnv
  let env :=
    match env "PATH" with
    | some path =>
      let paths := path.splitOn ";"
      let paths := system_paths.foldl
        (fun ps sys_path =>
          if ps.any (fun p => eqIgnoreAsciiCase p sys_path) then ps
          else ps ++ [sys_path])
        paths
      envInsert env "PATH" (String.intercalate ";" paths)
    | none => env
  let env :=
    if envContains env "TEMP" then env
    else
      match sysEnv "TEMP" with
      | some temp => envInsert env "TEMP" temp
      | none => env
  let env :=
    if envContains env "TMP" then env
    else
      match sysEnv "TMP" with
      | some tmp => envInsert env "TMP" tmp
      | none => env
  let env :=
    if envContains env "SystemRoot" then env
    else envInsert env "SystemRoot" "C:\\Windows"
  let env :=
    match custom_env with
    | some custom => custom.foldl (fun e kv => envInsert e kv.1 kv.2) env
    | none => env
  env

/-- The `read_output` helper: `None` for an empty (or unreadable) stream,
`Some` of the captured text otherwise. -/
def read_output (s : String) : Option String :=
  if s.isEmpty then none else some s

/-- Core WinSW execution (`execute_winsw`): build the argument list,
compose the environment, spawn, race the wait against the timeout
(killing and reaping the child when the timeout wins), read the output
streams, and wrap the exit status in an `ActionResp` - note the source
unconditionally uses `ActionResp::success` here, after computing
`status.success()` only to pick the default exit code. The `spawn`
oracle gives the OS reaction to the spawn: an error message, or the
behaviour of the child. Returns the result together with the spawn
trace. -/
def execute_winsw (fs : String → Bool) (sysEnv : String → Option String)
    (spawn : Except String ProcBehavior) (winsw_path action : String)
    (config : Option String) (timeout_secs : Nat)
    (custom_env : Option (List (String × String))) :
    Except WinswError ActionResp × List SpawnEvent :=
  match build_command_args fs action config with
  | .error e => (.error e, [])
  | .ok args =>
    let _env := get_enhanced_env sysEnv custom_env
    match spawn with
    | .error msg => (.error (.SpawnFailed msg), [])
    | .ok beh =>
      if timeout_secs < beh.duration then
        (.error (.Timeout timeout_secs), [⟨winsw_path, args, .killedAndReaped⟩])
      else
        match beh.result with
        | .error msg => (.error (.WaitFailed msg), [⟨winsw_path, args, .ranToCompletion⟩])
        | .ok status =>
          let stdout := read_output beh.stdout
          let stderr := read_output beh.stderr
          let ok := statusSuccess status
          let code := status.getD (if ok then 0 else -1)
          (.ok (ActionResp.success stdout stderr code), [⟨winsw_path, args, .ranToCompletion⟩])

/-- The outward-facing Tauri command (`winsw_action`): validate the
action, fill in request defaults, run `execute_winsw`, and convert any
typed error into an `ActionResp::failure` with code `-1`. -/
def winsw_action (fs : String → Bool) (sysEnv : String → Option String)
    (spawn : Except String ProcBehavior) (action : String) (req : Option ActionReq) :
    ActionResp × List SpawnEvent :=
  match validate_action action with
  | .error e => (ActionResp.failure (-1) e.display, [])
  | .ok action_lc =>
    let winsw_path := (req.bind (fun r => r.winsw_path)).getD DEFAULT_WINSW_PATH
    let timeout_secs := (req.bind (fun r => r.timeout_seconds)).getD DEFAULT_TIMEOUT_SECS
    let config := req.bind (fun r => r.config)
    let custom_env := req.bind (fun r => r.env_vars)
    match execute_winsw fs sysEnv spawn winsw_path action_lc config timeout_secs custom_env with
    | (.ok resp, tr) => (resp, tr)
    | (.error e, tr) => (ActionResp.failure (-1) e.display, tr)

end Winsw

namespace Scoop

def DEFAULT_TIMEOUT_SECS : Nat := 600

def BOOTSTRAP_TIMEOUT_SECS : Nat := 120

def VERSION_CHECK_TIMEOUT_SECS : Nat := 10

def CACHE_TTL_SECS : Nat := 60

/-- Options of a package install/uninstall call (`InstallOptions`). -/
structure InstallOptions where
  timeout_seconds : Option Nat := none
  global : Option Bool := none
  dry_run : Option Bool := none
  extra_args : Option (List String) := none

/-- Unified action response of the scoop module (`api::ActionResp`). -/
structure ActionResp where
  ok : Bool
  stdout : Option String
  stderr : Option String
  code : Int
  error : Option String
deriving DecidableEq, Repr

/-- Detection response (`DetectResp`). -/
structure DetectResp where
  installed : Bool
  version : Option String
  error : Option String
  source : Option String
  cached : Bool
deriving DecidableEq, Repr

/-- Bootstrap options (`BootstrapOptions`). -/
structure BootstrapOptions where
  timeout_seconds : Option Nat := none
  dry_run : Option Bool := none

/-- Error taxonomy of the scoop module (`ScoopError`). -/
inductive ScoopError where
  | PowerShellNotAvailable (msg : String)
  | CommandSpawn (msg : String)
  | Timeout (secs : Nat)
  | CommandFailed (code : Option Int) (stderr : String)
  | InvalidPackageName
deriving DecidableEq, Repr

/-- Rust `Debug` rendering of an `Option<i32>` exit code. -/
def optIntDebug : Option Int → String
  | none => "None"
  | some c => "Some(" ++ toString c ++ ")"

/-- Display strings of `ScoopError` (the `thiserror` format strings). -/
def ScoopError.display : ScoopError → String
  | .PowerShellNotAvailable m => "PowerShell 不可用: " ++ m
  | .CommandSpawn m => "命令启动失败: " ++ m
  | .Timeout s => "命令执行超时: " ++ toString s ++ "s"
  | .CommandFailed c st => "命令执行失败，退出码: " ++ optIntDebug c ++ ", 错误: " ++ st
  | .InvalidPackageName => "包名无效或为空"

/-- One entry of the detection cache (`DetectionCache`): the instant of
the last live check (seconds on the monotonic clock), the installed flag
and the optional version string. -/
structure DetectionCache where
  last_check : Nat
  installed : Bool
  version : Option String
deriving DecidableEq, Repr

/-- World state threaded through the scoop operations: the monotonic
clock, the inherited process environment, the results of binary lookups
(`which`), the filesystem, the spawn oracle (behaviour of the PowerShell
process spawned for a given script) and the process-wide detection
cache. -/
structure World where
  now : Nat
  sysEnv : String → Option String
  whichScoop : Bool
  pwshPath : Option String
  fsExists : String → Bool
  psSpawn : String → Except String ProcBehavior
  cache : Option DetectionCache

/-- Cache read (`cache_get`): a hit only when an entry exists and its
age on the monotonic clock is at most the TTL. -/
def cache_get (w : World) : Option DetectResp :=
  match w.cache with
  | some c =>
    if w.now - c.last_check ≤ CACHE_TTL_SECS then
      some { installed := c.installed, version := c.version, error := none,
             source := some "cache", cached := true }
    else none
  | none => none

/-- Cache write (`cache_put`): full overwrite with a fresh timestamp. -/
def cache_put (w : World) (installed : Bool) (version : Option String) : World :=
  { w with cache := some { last_check := w.now, installed := installed, version := version } }

/-- PowerShell discovery (`powershell_path`): `which pwsh.exe` or
`which powershell.exe`, abstracted by the world's lookup result. -/
def powershell_path (w : World) : Option String :=
  w.pwshPath

/-- Fixed PowerShell invocation prelude (`build_ps_command_args`). -/
def build_ps_command_args (script : String) : List String :=
  ["-NoProfile", "-ExecutionPolicy", "Bypass", "-Command", script]

/-- Environment composer of the scoop module (`get_enhanced_env`):
prepends scoop shim/app directories to PATH (deduplicated by substring
match), and sets the SCOOP and SCOOP_GLOBAL roots from HOMEDRIVE /
USERPROFILE / ProgramData with literal fallbacks. -/
def get_enhanced_env (sysEnv : String → Option String) : String → Option String :=
  let env := sysEnv
  let env :=
    match env "PATH" with
    | some path =>
      let paths := path.splitOn ";"
      let paths :=
        match sysEnv "USERPROFILE" with
        | some userprofile =>
          let scoop_shims := userprofile ++ "\\scoop\\shims"
          let scoop_apps := userprofile ++ "\\scoop\\apps\\scoop\\current\\bin"
          let paths :=
            if paths.any (fun p => strContains p "scoop\\shims") then paths
            else scoop_shims :: paths
          if paths.any (fun p => strContains p "scoop\\apps") then paths
          else scoop_apps :: paths
        | none => paths
      let paths :=
        match sysEnv "ProgramData" with
        | some programdata =>
          let global_shims := programdata ++ "\\scoop\\shims"
          if paths.any (fun p => strContains p "ProgramData\\scoop") then paths
          else global_shims :: paths
        | none => paths
      envInsert env "PATH" (String.intercalate ";" paths)
    | none => env
  let env :=
    match sysEnv "HOMEDRIVE" with
    | some homedrive => envInsert env "SCOOP" (homedrive ++ "\\aidex\\scoop")
    | none =>
      match sysEnv "USERPROFILE" with
      | some userprofile => envInsert env "SCOOP" (userprofile ++ "\\aidex\\scoop")
      | none => envInsert env "SCOOP" "C:\\aidex\\scoop"
  let env :=
    match sysEnv "ProgramData" with
    | some programdata => envInsert env "SCOOP_GLOBAL" (programdata ++ "\\aidex\\scoop")
    | none => envInsert env "SCOOP_GLOBAL" "C:\\aidex\\scoop"
  env

/-- Version probe (`try_scoop_version`): spawn `scoop --version` through
PowerShell, race `wait_with_output` against the 10s probe timeout (the
wait future is simply dropped when the timeout wins, so the child is
abandoned running), and on success return the trimmed stdout. -/
def try_scoop_version (w : World) : Except ScoopError String × List SpawnEvent :=
  match powershell_path w with
  | none => (.error (.PowerShellNotAvailable "未找到 PowerShell 可执行文件"), [])
  | some ps =>
    let args := build_ps_command_args "scoop --version"
    let _env := get_enhanced_env w.sysEnv
    match w.psSpawn "scoop --version" with
    | .error msg => (.error (.CommandSpawn msg), [])
    | .ok beh =>
      if VERSION_CHECK_TIMEOUT_SECS < beh.duration then
        (.error (.Timeout VERSION_CHECK_TIMEOUT_SECS), [⟨ps, args, .abandonedRunning⟩])
      else
        match beh.result with
        | .error msg => (.error (.CommandSpawn msg), [⟨ps, args, .ranToCompletion⟩])
        | .ok status =>
          if statusSuccess status then
            (.ok (strTrim beh.stdout), [⟨ps, args, .ranToCompletion⟩])
          else
            (.error (.CommandFailed status (strTrim beh.stderr)), [⟨ps, args, .ranToCompletion⟩])

/-- Detection of a scoop installation (`is_scoop_installed`): cache
first; then a `which scoop` lookup with a best-effort version probe and
a cache write; then a home-directory existence check with a cache
write. -/
def is_scoop_installed (w : World) : Except ScoopError Bool × World × List SpawnEvent :=
  match cache_get w with
  | some cached => (.ok cached.installed, w, [])
  | none =>
    if w.whichScoop then
      let (vres, tr) := try_scoop_version w
      let w1 := cache_put w true vres.toOption
      (.ok true, w1, tr)
    else
      let home : Option String :=
        match w.sysEnv "SCOOP" with
        | some h => some h
        | none =>
          match w.sysEnv "SCOOP_HOME" with
          | some h => some h
          | none => (w.sysEnv "USERPROFILE").map (fun up => up ++ "\\scoop")
      let installed := (home.map w.fsExists).getD false
      (.ok installed, cache_put w installed none, [])

/-- Public version query (`scoop_version`). -/
def scoop_version (w : World) : Except ScoopError String × List SpawnEvent :=
  try_scoop_version w

/-- Snapshot of the detection cache (`detection_cache`). -/
def detection_cache (w : World) : Option DetectResp :=
  cache_get w

/-- Raw output of a completed process (`std::process::Output`). -/
structure Output where
  status : Option Int
  stdout : String
  stderr : String
deriving Repr

/-- Output normalisation (`parse_output`): `None` for empty bytes. -/
def parse_output (output : String) : Option String :=
  if output.isEmpty then none else some output

/-- PowerShell command supervisor of the scoop module
(`execute_ps_command`): spawn, then race `wait_with_output` against the
timeout. When the timeout wins the wait future is dropped and the error
is returned - the child is neither killed nor reaped, so it is abandoned
still running. -/
def execute_ps_command (psSpawn : String → Except String ProcBehavior)
    (ps_path : String) (script : String) (timeout_secs : Nat)
    (_env : String → Option String) : Except ScoopError Output × List SpawnEvent :=
  let args := build_ps_command_args script
  match psSpawn script with
  | .error msg => (.error (.CommandSpawn msg), [])
  | .ok beh =>
    if timeout_secs < beh.duration then
      (.error (.Timeout timeout_secs), [⟨ps_path, args, .abandonedRunning⟩])
    else
      match beh.result with
      | .error msg => (.error (.CommandSpawn msg), [⟨ps_path, args, .ranToCompletion⟩])
      | .ok status => (.ok ⟨status, beh.stdout, beh.stderr⟩, [⟨ps_path, args, .ranToCompletion⟩])

/-- Fixed `Set-ExecutionPolicy` prelude of the bootstrap installer. -/
def set_policy : String :=
  "Set-ExecutionPolicy -ExecutionPolicy RemoteSigned -Scope CurrentUser -Force"

/-- Fixed bootstrap install script of the bootstrap installer. -/
def install_cmd : String :=
  "Invoke-RestMethod -Uri https://get.scoop.sh | Invoke-Expression"

/-- Bootstrap installer (`install_scoop`): resolve PowerShell, honour
`dry_run` by returning the combined script as synthetic stdout, and
otherwise run the policy command and the install script in sequence,
writing the cache (with a fresh version probe) on success. -/
def install_scoop (opts : BootstrapOptions) (w : World) :
    Except ScoopError ActionResp × World × List SpawnEvent :=
  match powershell_path w with
  | none => (.error (.PowerShellNotAvailable "未找到 PowerShell 可执行文件"), w, [])
  | some ps =>
    let timeout_secs := opts.timeout_seconds.getD BOOTSTRAP_TIMEOUT_SECS
    let dry_run := opts.dry_run.getD false
    if dry_run then
      (.ok { ok := true, stdout := some (set_policy ++ "\n" ++ install_cmd),
             stderr := none, code := 0, error := none }, w, [])
    else
      let env := get_enhanced_env w.sysEnv
      match execute_ps_command w.psSpawn ps set_policy timeout_secs env with
      | (.error e, tr1) => (.error e, w, tr1)
      | (.ok out1, tr1) =>
        if !(statusSuccess out1.status) then
          (.error (.CommandFailed out1.status out1.stderr), w, tr1)
        else
          match execute_ps_command w.psSpawn ps install_cmd timeout_secs env with
          | (.error e, tr2) => (.error e, w, tr1 ++ tr2)
          | (.ok out2, tr2) =>
            let ok := statusSuccess out2.status
            let stdout := parse_output out2.stdout
            let stderr := parse_output out2.stderr
            let code := out2.status.getD (if ok then 0 else -1)
            if ok then
              let (vres, tr3) := try_scoop_version w
              let w1 := cache_put w true vres.toOption
              (.ok { ok := ok, stdout := stdout, stderr := stderr, code := code,
                     error := none }, w1, tr1 ++ tr2 ++ tr3)
            else
              (.error (.CommandFailed out2.status (stderr.getD "")), w, tr1 ++ tr2)

/-- Package installer (`install_package`): trim and validate the
operand, then resolve PowerShell, assemble the `scoop install` command
line, honour `dry_run` with a synthetic response, and otherwise run the
command, mapping a non-success exit to `CommandFailed`. -/
def install_package (pkg : String) (opts : InstallOptions) (w : World) :
    Except ScoopError ActionResp × World × List SpawnEvent :=
  let pkg := strTrim pkg
  if pkg.isEmpty then (.error .InvalidPackageName, w, [])
  else
    let timeout_secs := opts.timeout_seconds.getD DEFAULT_TIMEOUT_SECS
    let global := opts.global.getD false
    let dry_run := opts.dry_run.getD false
    let extra_args := opts.extra_args.getD []
    match powershell_path w with
    | none => (.error (.PowerShellNotAvailable "未找到 PowerShell 可执行文件"), w, [])
    | some ps =>
      let cmd_parts := ["scoop install"] ++ (if global then ["--global"] else []) ++ [pkg]
      let cmdline :=
        if extra_args.isEmpty then String.intercalate " " cmd_parts
        else String.intercalate " " cmd_parts ++ " " ++ String.intercalate " " extra_args
      if dry_run then
        (.ok { ok := true, stdout := some cmdline, stderr := none, code := 0,
               error := none }, w, [])
      else
        let env := get_enhanced_env w.sysEnv
        match execute_ps_command w.psSpawn ps cmdline timeout_secs env with
        | (.error e, tr) => (.error e, w, tr)
        | (.ok out, tr) =>
          let ok := statusSuccess out.status
          if ok then
            (.ok { ok := ok, stdout := parse_output out.stdout,
                   stderr := parse_output out.stderr, code := out.status.getD 0,
                   error := none }, w, tr)
          else
            (.error (.CommandFailed out.status ((parse_output out.stderr).getD "")), w, tr)

/-- Package uninstaller (`uninstall_package`): same shape as
`install_package`, with the `--purge` modifier. -/
def uninstall_package (pkg : String) (purge : Bool) (opts : InstallOptions) (w : World) :
    Except ScoopError ActionResp × World × List SpawnEvent :=
  let pkg := strTrim pkg
  if pkg.isEmpty then (.error .InvalidPackageName, w, [])
  else
    let timeout_secs := opts.timeout_seconds.getD DEFAULT_TIMEOUT_SECS
    let dry_run := opts.dry_run.getD false
    match powershell_path w with
    | none => (.error (.PowerShellNotAvailable "未找到 PowerShell 可执行文件"), w, [])
    | some ps =>
      let cmdline :=
        if purge then "scoop uninstall --purge " ++ pkg
        else "scoop uninstall " ++ pkg
      if dry_run then
        (.ok { ok := true, stdout := some cmdline, stderr := none, code := 0,
               error := none }, w, [])
      else
        let env := get_enhanced_env w.sysEnv
        match execute_ps_command w.psSpawn ps cmdline timeout_secs env with
        | (.error e, tr) => (.error e, w, tr)
        | (.ok out, tr) =>
          let ok := statusSuccess out.status
          if ok then
            (.ok { ok := ok, stdout := parse_output out.stdout,
                   stderr := parse_output out.stderr, code := out.status.getD 0,
                   error := none }, w, tr)
          else
            (.error (.CommandFailed out.status ((parse_output out.stderr).getD "")), w, tr)

/-- Response of the outward-facing detect command (`DetectCmdResp`). -/
structure DetectCmdResp where
  ok : Bool
  installed : Bool
  version : Option String
  error : Option String
  cached : Bool
deriving DecidableEq, Repr

/-- Outward-facing Tauri detect command (`scoop_detect`): run
`is_scoop_installed`, then unconditionally run the version probe
(`scoop_version`), and report whether a cache snapshot is present. -/
def scoop_detect (w : World) : DetectCmdResp × World × List SpawnEvent :=
  match is_scoop_installed w with
  | (.ok installed, w1, tr1) =>
    let (vres, tr2) := scoop_version w1
    let cached := (detection_cache w1).isSome
    ({ ok := true, installed := installed, version := vres.toOption, error := none,
       cached := cached }, w1, tr1 ++ tr2)
  | (.error e, w1, tr1) =>
    ({ ok := false, installed := false, version := none, error := some e.display,
       cached := false }, w1, tr1)

end Scoop

namespace Fixtures

/-- Empty process environment. -/
def noEnv : String → Option String := fun _ => none

/-- Filesystem on which every path exists. -/
def fsAll : String → Bool := fun _ => true

/-- Filesystem on which no path exists. -/
def fsNone : String → Bool := fun _ => false

/-- Baseline world: PowerShell resolvable, nothing installed, empty
cache, instant processes. -/
def w0 : Scoop.World where
  now := 0
  sysEnv := noEnv
  whichScoop := false
  pwshPath := some "pwsh.exe"
  fsExists := fsNone
  psSpawn := fun _ => .ok ⟨0, .ok (some 0), "", ""⟩
  cache := none

/-- World with no resolvable PowerShell interpreter. -/
def w_nops : Scoop.World where
  now := 0
  sysEnv := noEnv
  whichScoop := false
  pwshPath := none
  fsExists := fsNone
  psSpawn := fun _ => .error "spawn refused"
  cache := none

/-- World with a fresh cache entry (age 30s of TTL 60s) recording
version 0.5.3, while a live probe would report version 0.6.0. -/
def w_fresh : Scoop.World where
  now := 30
  sysEnv := noEnv
  whichScoop := true
  pwshPath := some "pwsh.exe"
  fsExists := fsNone
  psSpawn := fun _ => .ok ⟨0, .ok (some 0), "0.6.0\n", ""⟩
  cache := some { last_check := 0, installed := true, version := some "0.5.3" }

/-- World whose cache entry has expired (age 100s of TTL 60s). -/
def w_expired : Scoop.World where
  now := 100
  sysEnv := noEnv
  whichScoop := true
  pwshPath := some "pwsh.exe"
  fsExists := fsNone
  psSpawn := fun _ => .ok ⟨0, .ok (some 0), "0.6.0\n", ""⟩
  cache := some { last_check := 0, installed := true, version := some "0.5.3" }

/-- Spawn oracle whose process would run for 120 seconds. -/
def slowSpawn : String → Except String ProcBehavior :=
  fun _ => .ok ⟨120, .ok (some 0), "partial", ""⟩

end Fixtures

/-- C5 counterexample: the allow-list accepts `restart!`, not
`restart-force` - `validate_action` rejects `restart-force` with
`UnsupportedAction`, while the claim states it is in the accepted set. -/
theorem c5_restart_force_rejected :
    Winsw.validate_action "restart-force"
        = .error (.UnsupportedAction "restart-force")
      ∧ Winsw.validate_action "restart!" = .ok "restart!" := by
  constructor <;> rfl

/-- C5 (amended): after trimming and lower-casing, `service_action`
accepts exactly {install, uninstall, start, stop, restart, restart!,
status, refresh}; every other string fails with `UnsupportedAction`, and
`"  STOP  "` is accepted as `stop`. -/
theorem c5_validate_action_charact :
    (∀ s : String,
      ((strToLower (strTrim s) = "install" ∨ strToLower (strTrim s) = "uninstall" ∨
        strToLower (strTrim s) = "start" ∨ strToLower (strTrim s) = "stop" ∨
        strToLower (strTrim s) = "restart" ∨ strToLower (strTrim s) = "restart!" ∨
        strToLower (strTrim s) = "status" ∨ strToLower (strTrim s) = "refresh") →
          Winsw.validate_action s = .ok (strToLower (strTrim s)))
      ∧ (¬ (strToLower (strTrim s) = "install" ∨ strToLower (strTrim s) = "uninstall" ∨
        strToLower (strTrim s) = "start" ∨ strToLower (strTrim s) = "stop" ∨
        strToLower (strTrim s) = "restart" ∨ strToLower (strTrim s) = "restart!" ∨
        strToLower (strTrim s) = "status" ∨ strToLower (strTrim s) = "refresh") →
          Winsw.validate_action s = .error (.UnsupportedAction s)))
    ∧ Winsw.validate_action "  STOP  " = .ok "stop" := by
  constructor
  · intro s
    constructor
    · intro h
      simp only [Winsw.validate_action]
      rcases h with h | h | h | h | h | h | h | h <;> rw [h] <;> rfl
    · intro h
      have hc : Winsw.ALLOWED_ACTIONS.contains (strToLower (strTrim s)) = false := by
        simp only [Winsw.ALLOWED_ACTIONS, List.contains, List.elem_eq_mem, List.mem_cons,
          List.not_mem_nil, or_false, decide_eq_false_iff_not]
        simpa using h
      simp only [Winsw.validate_action, hc]
      rfl
  · rfl

/-- C5 witness: the characterization applied at concrete inputs -
`"  Restart!  "` normalizes into the accepted set, `"reboot"` falls
outside it and is rejected. -/
theorem c5_witness :
    Winsw.validate_action "  Restart!  " = .ok "restart!"
      ∧ Winsw.validate_action "reboot" = .error (.UnsupportedAction "reboot") := by
  constructor
  · exact (c5_validate_action_charact.1 "  Restart!  ").1
      (Or.inr (Or.inr (Or.inr (Or.inr (Or.inr (Or.inl (by decide)))))))
  · exact (c5_validate_action_charact.1 "reboot").2 (by decide)

/-- C9: for every operand string that trims to empty, `install_package`
and `uninstall_package` fail with `InvalidPackageName` regardless of all
other options, with the world untouched and no process spawned. -/
theorem c9_empty_operand_rejected (pkg : String) (purge : Bool)
    (opts : Scoop.InstallOptions) (w : Scoop.World) (h : strTrim pkg = "") :
    Scoop.install_package pkg opts w = (.error .InvalidPackageName, w, [])
      ∧ Scoop.uninstall_package pkg purge opts w = (.error .InvalidPackageName, w, []) := by
  constructor
  · unfold Scoop.install_package
    simp [h, show "".isEmpty = true from rfl]
  · unfold Scoop.uninstall_package
    simp [h, show "".isEmpty = true from rfl]

/-- C9 witness: the blank operand `"  "` is rejected by both calls on a
concrete world, with `dry_run` and `global` set. -/
theorem c9_witness :
    strTrim "  " = ""
      ∧ Scoop.install_package "  " { dry_run := some true, global := some true } Fixtures.w0
          = (.error .InvalidPackageName, Fixtures.w0, [])
      ∧ Scoop.uninstall_package "  " true { dry_run := some true } Fixtures.w0
          = (.error .InvalidPackageName, Fixtures.w0, []) := by
  have h := c9_empty_operand_rejected "  " true
    { dry_run := some true, global := some true } Fixtures.w0 (by decide)
  have h' := c9_empty_operand_rejected "  " true
    { dry_run := some true } Fixtures.w0 (by decide)
  exact ⟨by decide, h.1, h'.2⟩

/-- C8: for every config-required action, a supplied config path that
does not exist fails with `ConfigNotFound` and a missing config path
fails with `ConfigRequired`, in both cases with an empty spawn trace
(the failure happens before any process is spawned). -/
theorem c8_config_validation (fs : String → Bool) (sysEnv : String → Option String)
    (spawn : Except String ProcBehavior) (wpath action : String) (t : Nat)
    (custom : Option (List (String × String)))
    (h : Winsw.requires_config action = true) :
    Winsw.execute_winsw fs sysEnv spawn wpath action none t custom
        = (.error (.ConfigRequired action), [])
      ∧ ∀ cfg, fs cfg = false →
          Winsw.execute_winsw fs sysEnv spawn wpath action (some cfg) t custom
            = (.error (.ConfigNotFound cfg), []) := by
  constructor
  · unfold Winsw.execute_winsw Winsw.build_command_args
    simp [h]
  · intro cfg hcfg
    unfold Winsw.execute_winsw Winsw.build_command_args
    simp [h, hcfg]

/-- C8 witness: the `start` action fails with `ConfigRequired` without a
config and with `ConfigNotFound` for the missing path `missing.xml`,
spawning nothing either way. -/
theorem c8_witness :
    Winsw.execute_winsw Fixtures.fsNone Fixtures.noEnv (.error "unused") "winsw.exe"
        "start" none 30 none = (.error (.ConfigRequired "start"), [])
      ∧ Winsw.execute_winsw Fixtures.fsNone Fixtures.noEnv (.error "unused") "winsw.exe"
        "start" (some "missing.xml") 30 none
          = (.error (.ConfigNotFound "missing.xml"), []) := by
  have h := c8_config_validation Fixtures.fsNone Fixtures.noEnv (.error "unused")
    "winsw.exe" "start" 30 none (by decide)
  exact ⟨h.1, h.2 "missing.xml" rfl⟩

/-- C10: every action of the WinSW allow-list - status and refresh
included - is classified as config-required, and a `winsw_action` call
with no request (hence no config path) fails with `ConfigRequired` for
each of them, spawning nothing. -/
theorem c10_all_actions_require_config :
    ∀ a ∈ Winsw.ALLOWED_ACTIONS,
      Winsw.requires_config a = true
        ∧ ∀ (fs : String → Bool) (sysEnv : String → Option String)
            (spawn : Except String ProcBehavior),
            Winsw.winsw_action fs sysEnv spawn a none
              = (Winsw.ActionResp.failure (-1)
                  (Winsw.WinswError.display (.ConfigRequired a)), []) := by
  intro a ha
  fin_cases ha <;> exact ⟨rfl, fun _ _ _ => rfl⟩

/-- Inserting a binding keeps every already-present key present. -/
theorem envInsert_isSome (m : String → Option String) (k v x : String)
    (h : (m x).isSome = true) : (envInsert m k v x).isSome = true := by
  unfold envInsert
  split <;> simp [h]

/-- Folding a list of insertions keeps every present key present. -/
theorem foldl_envInsert_isSome (l : List (String × String)) (m : String → Option String)
    (x : String) (h : (m x).isSome = true) :
    ((l.foldl (fun e kv => envInsert e kv.1 kv.2) m) x).isSome = true := by
  induction l generalizing m with
  | nil => exact h
  | cons kv tl ih => exact ih _ (envInsert_isSome _ _ _ _ h)

/-- The SystemRoot defaulting step always leaves SystemRoot present. -/
theorem sysroot_step_isSome (m : String → Option String) :
    ((if envContains m "SystemRoot" then m
      else envInsert m "SystemRoot" "C:\\Windows") "SystemRoot").isSome = true := by
  by_cases h : (m "SystemRoot").isSome = true
  · simp [envContains, h]
  · simp [envContains, h, envInsert]

/-- C6: the detection cache hits exactly when an entry exists whose age
on the monotonic clock is at most the 60s TTL, a fresh entry is served
verbatim as a cached response, and on a miss `is_scoop_installed`
performs a live check whose result fully overwrites the entry with the
current instant as its timestamp. -/
theorem c6_cache_ttl_charact (w : Scoop.World) :
    ((Scoop.cache_get w).isSome = true
        ↔ ∃ c, w.cache = some c ∧ w.now - c.last_check ≤ Scoop.CACHE_TTL_SECS)
      ∧ (∀ c, w.cache = some c → w.now - c.last_check ≤ Scoop.CACHE_TTL_SECS →
          Scoop.cache_get w = some ⟨c.installed, c.version, none, some "cache", true⟩)
      ∧ (Scoop.cache_get w = none →
          ∃ inst ver, (Scoop.is_scoop_installed w).2.1.cache
            = some { last_check := w.now, installed := inst, version := ver }) := by
  refine ⟨?_, ?_, ?_⟩
  · unfold Scoop.cache_get
    cases hc : w.cache with
    | none => simp
    | some c =>
      by_cases ht : w.now - c.last_check ≤ Scoop.CACHE_TTL_SECS <;>
        simp [ht, Scoop.CACHE_TTL_SECS]
  · intro c hc ht
    unfold Scoop.cache_get
    rw [hc]
    simp [ht]
  · intro h
    unfold Scoop.is_scoop_installed
    rw [h]
    by_cases hw : w.whichScoop = true
    · rcases htv : Scoop.try_scoop_version w with ⟨vres, tr⟩
      exact ⟨true, vres.toOption, by simp [hw, htv, Scoop.cache_put]⟩
    · have hw2 : w.whichScoop = false := by simpa using hw
      rw [hw2]
      exact ⟨_, none, rfl⟩

/-- C6 witness: on a world whose entry is 100s old (TTL 60s) the cache
misses and the live check overwrites the entry with timestamp 100. -/
theorem c6_witness :
    Scoop.cache_get Fixtures.w_expired = none
      ∧ ∃ inst ver, (Scoop.is_scoop_installed Fixtures.w_expired).2.1.cache
          = some { last_check := 100, installed := inst, version := ver } := by
  exact ⟨rfl, (c6_cache_ttl_charact Fixtures.w_expired).2.2 rfl⟩

/-- C7 counterexample: composing over an inherited environment that
lacks TEMP and TMP yields a map that still lacks them - no well-known
literal is substituted - while SystemRoot does get the literal default. -/
theorem c7_missing_temp_not_defaulted :
    Winsw.get_enhanced_env Fixtures.noEnv none "TEMP" = none
      ∧ Winsw.get_enhanced_env Fixtures.noEnv none "TMP" = none
      ∧ Winsw.get_enhanced_env Fixtures.noEnv none "SystemRoot" = some "C:\\Windows" := by
  exact ⟨rfl, rfl, rfl⟩

/-- C7 (amended): the composer guarantees only SystemRoot, defaulting it
to the literal `C:\Windows`; TEMP and TMP are merely re-read from the
same inherited environment when missing, so an environment without them
composes to a map without them. -/
theorem c7_sysroot_only_default (sysEnv : String → Option String)
    (custom : Option (List (String × String))) :
    ((Winsw.get_enhanced_env sysEnv custom) "SystemRoot").isSome = true
      ∧ (sysEnv "TEMP" = none → Winsw.get_enhanced_env sysEnv none "TEMP" = none)
      ∧ (sysEnv "TMP" = none → Winsw.get_enhanced_env sysEnv none "TMP" = none) := by
  refine ⟨?_, ?_, ?_⟩
  · simp only [Winsw.get_enhanced_env]
    cases custom with
    | none => exact sysroot_step_isSome _
    | some c => exact foldl_envInsert_isSome c _ _ (sysroot_step_isSome _)
  · intro h
    simp only [Winsw.get_enhanced_env]
    cases hp : sysEnv "PATH" <;> cases ht : sysEnv "TMP" <;>
        cases hs : sysEnv "SystemRoot" <;>
      simp [envContains, envInsert, h, hp, ht, hs]
  · intro h
    simp only [Winsw.get_enhanced_env]
    cases hp : sysEnv "PATH" <;> cases ht : sysEnv "TEMP" <;>
        cases hs : sysEnv "SystemRoot" <;>
      simp [envContains, envInsert, h, hp, ht, hs]

/-- C7 witness: with an empty inherited environment and a custom
variable, SystemRoot is present while TEMP and TMP stay absent. -/
theorem c7_witness :
    ((Winsw.get_enhanced_env Fixtures.noEnv (some [("APP_HOME", "C:\\app")])) "SystemRoot").isSome
        = true
      ∧ Winsw.get_enhanced_env Fixtures.noEnv none "TEMP" = none
      ∧ Winsw.get_enhanced_env Fixtures.noEnv none "TMP" = none := by
  have h := c7_sysroot_only_default Fixtures.noEnv (some [("APP_HOME", "C:\\app")])
  exact ⟨h.1, h.2.1 rfl, h.2.2 rfl⟩

/-- C1 (code-bug evaluation): a `winsw_action` call whose process runs
to completion with exit code 1 gets the outward response
`{ok := true, code := 1, error := none}` - `ActionResp::success` is used
unconditionally after completion, the computed `status.success()` only
picks the default exit code. -/
theorem c1_nonzero_exit_reported_ok :
    (Winsw.winsw_action Fixtures.fsAll Fixtures.noEnv
        (.ok ⟨0, .ok (some 1), "boom", "bad"⟩) "status"
        (some { winsw_path := none, config := some "svc.xml",
                timeout_seconds := none, env_vars := none })).1
      = { ok := true, stdout := some "boom", stderr := some "bad", code := 1,
          error := none } := by
  rfl

/-- C2 counterexample: with a 1s timeout and a process that would run
for 120s, the scoop PowerShell supervisor returns `Timeout{1}` but the
spawned child is abandoned still running: it is neither killed nor
reaped, so a running child remains after the call. -/
theorem c2_scoop_timeout_abandons_child :
    Scoop.execute_ps_command Fixtures.slowSpawn "pwsh.exe" "scoop install git" 1 Fixtures.noEnv
      = (.error (.Timeout 1),
         [⟨"pwsh.exe", Scoop.build_ps_command_args "scoop install git",
           .abandonedRunning⟩]) := by
  rfl

/-- C2 (amended): on timeout both supervisors return `Timeout{seconds}`
carrying the configured timeout and discard all output; the WinSW
supervisor kills and reaps the child so none remains, while the scoop
PowerShell supervisor abandons the still-running child. -/
theorem c2_timeout_behaviour :
    (∀ (fs : String → Bool) (sysEnv : String → Option String) (beh : ProcBehavior)
        (wpath action : String) (cfg : Option String) (t : Nat)
        (custom : Option (List (String × String))) (args : List String),
        Winsw.build_command_args fs action cfg = .ok args →
        t < beh.duration →
        Winsw.execute_winsw fs sysEnv (.ok beh) wpath action cfg t custom
          = (.error (.Timeout t), [⟨wpath, args, .killedAndReaped⟩]))
      ∧ (∀ (psSpawn : String → Except String ProcBehavior) (ps script : String)
          (t : Nat) (env : String → Option String) (beh : ProcBehavior),
          psSpawn script = .ok beh →
          t < beh.duration →
          Scoop.execute_ps_command psSpawn ps script t env
            = (.error (.Timeout t),
               [⟨ps, Scoop.build_ps_command_args script, .abandonedRunning⟩])) := by
  constructor
  · intro fs sysEnv beh wpath action cfg t custom args hb ht
    unfold Winsw.execute_winsw
    rw [hb]
    simp [ht]
  · intro psSpawn ps script t env beh hs ht
    unfold Scoop.execute_ps_command
    rw [hs]
    simp [ht]

/-- C2 witness: concrete timeouts on both supervisors - the WinSW one
kills and reaps, the scoop one abandons the running child. -/
theorem c2_witness :
    Winsw.execute_winsw Fixtures.fsAll Fixtures.noEnv (.ok ⟨120, .ok (some 0), "", ""⟩)
        "winsw.exe" "stop" (some "svc.xml") 1 none
        = (.error (.Timeout 1), [⟨"winsw.exe", ["stop", "svc.xml"], .killedAndReaped⟩])
      ∧ Scoop.execute_ps_command Fixtures.slowSpawn "pwsh.exe" "x" 5 Fixtures.noEnv
          = (.error (.Timeout 5),
             [⟨"pwsh.exe", Scoop.build_ps_command_args "x", .abandonedRunning⟩]) := by
  constructor
  · exact c2_timeout_behaviour.1 Fixtures.fsAll Fixtures.noEnv _ "winsw.exe" "stop"
      (some "svc.xml") 1 none ["stop", "svc.xml"] rfl (by decide)
  · exact c2_timeout_behaviour.2 Fixtures.slowSpawn "pwsh.exe" "x" 5 Fixtures.noEnv _
      rfl (by decide)

/-- C3 counterexample: on a world whose cache entry is fresh (age 30s of
TTL 60s, version 0.5.3), the outward `scoop_detect` still spawns one
version probe and serves the probe's version 0.6.0 instead of the cached
one - contradicting the claim that no process is spawned and the cached
result is served. -/
theorem c3_fresh_cache_still_probes :
    (Scoop.cache_get Fixtures.w_fresh).isSome = true
      ∧ (Scoop.scoop_detect Fixtures.w_fresh).2.2
          = [⟨"pwsh.exe", Scoop.build_ps_command_args "scoop --version", .ranToCompletion⟩]
      ∧ (Scoop.scoop_detect Fixtures.w_fresh).1.version = some "0.6.0"
      ∧ Fixtures.w_fresh.cache
          = some { last_check := 0, installed := true, version := some "0.5.3" } := by
  exact ⟨rfl, rfl, rfl, rfl⟩

/-- C3 (amended): while a cache entry is fresh, `is_scoop_installed`
serves the cached installed flag with no spawn and no state change, but
the outward `scoop_detect` additionally runs the version probe on every
call, so its spawn trace equals the probe's. -/
theorem c3_fresh_cache_no_spawn_in_is_installed (w : Scoop.World) (c : Scoop.DetectResp)
    (h : Scoop.cache_get w = some c) :
    Scoop.is_scoop_installed w = (.ok c.installed, w, [])
      ∧ (Scoop.scoop_detect w).2.2 = (Scoop.try_scoop_version w).2 := by
  have h1 : Scoop.is_scoop_installed w = (.ok c.installed, w, []) := by
    unfold Scoop.is_scoop_installed
    rw [h]
  refine ⟨h1, ?_⟩
  unfold Scoop.scoop_detect
  rw [h1]
  rcases htv : Scoop.scoop_version w with ⟨vres, tr⟩
  have htv' : Scoop.try_scoop_version w = (vres, tr) := htv
  simp [htv, htv']

/-- C3 witness: the fresh-cache world serves the cached installed flag
without spawning, and the detect trace is exactly the probe's trace. -/
theorem c3_witness :
    Scoop.cache_get Fixtures.w_fresh
        = some { installed := true, version := some "0.5.3", error := none,
                 source := some "cache", cached := true }
      ∧ Scoop.is_scoop_installed Fixtures.w_fresh = (.ok true, Fixtures.w_fresh, [])
      ∧ (Scoop.scoop_detect Fixtures.w_fresh).2.2
          = (Scoop.try_scoop_version Fixtures.w_fresh).2 := by
  have h := c3_fresh_cache_no_spawn_in_is_installed Fixtures.w_fresh
    { installed := true, version := some "0.5.3", error := none,
      source := some "cache", cached := true } rfl
  exact ⟨rfl, h.1, h.2⟩

/-- C4 counterexample: a dry-run install of a well-formed operand fails
with `PowerShellNotAvailable` on a world with no resolvable PowerShell,
an error outside the claimed validation-error set - interpreter
resolution happens before the dry-run short-circuit. -/
theorem c4_dry_run_needs_interpreter :
    (Scoop.install_package "git" { dry_run := some true } Fixtures.w_nops).1
        = .error (.PowerShellNotAvailable "未找到 PowerShell 可执行文件")
      ∧ (Scoop.install_scoop { dry_run := some true } Fixtures.w_nops).1
          = .error (.PowerShellNotAvailable "未找到 PowerShell 可执行文件") := by
  exact ⟨rfl, rfl⟩

/-- C4 (amended): a dry-run install, uninstall or bootstrap never spawns
a process and never changes the world (in particular the cache), and the
only errors it can return are the empty-operand validation error and
`PowerShellNotAvailable` when no interpreter is resolvable. -/
theorem c4_dry_run_effect_free (pkg : String) (purge : Bool)
    (iopts : Scoop.InstallOptions) (bopts : Scoop.BootstrapOptions) (w : Scoop.World)
    (hi : iopts.dry_run = some true) (hb : bopts.dry_run = some true) :
    ((Scoop.install_package pkg iopts w).2 = (w, [])
      ∧ ∀ e, (Scoop.install_package pkg iopts w).1 = .error e →
          e = .InvalidPackageName
            ∨ e = .PowerShellNotAvailable "未找到 PowerShell 可执行文件")
    ∧ ((Scoop.uninstall_package pkg purge iopts w).2 = (w, [])
      ∧ ∀ e, (Scoop.uninstall_package pkg purge iopts w).1 = .error e →
          e = .InvalidPackageName
            ∨ e = .PowerShellNotAvailable "未找到 PowerShell 可执行文件")
    ∧ ((Scoop.install_scoop bopts w).2 = (w, [])
      ∧ ∀ e, (Scoop.install_scoop bopts w).1 = .error e →
          e = .PowerShellNotAvailable "未找到 PowerShell 可执行文件") := by
  refine ⟨?_, ?_, ?_⟩
  · unfold Scoop.install_package
    by_cases hp : (strTrim pkg).isEmpty = true
    · simp [hp]
    · cases hw : w.pwshPath with
      | none => simp [hp, hw, Scoop.powershell_path]
      | some ps => simp [hp, hw, hi, Scoop.powershell_path]
  · unfold Scoop.uninstall_package
    by_cases hp : (strTrim pkg).isEmpty = true
    · simp [hp]
    · cases hw : w.pwshPath with
      | none => simp [hp, hw, Scoop.powershell_path]
      | some ps => simp [hp, hw, hi, Scoop.powershell_path]
  · unfold Scoop.install_scoop
    cases hw : w.pwshPath with
    | none => simp [hw, Scoop.powershell_path]
    | some ps => simp [hw, hb, Scoop.powershell_path]

/-- C4 witness: concrete dry-run install, uninstall and bootstrap calls
on the baseline world leave it untouched and spawn nothing. -/
theorem c4_witness :
    (Scoop.install_package "git" { dry_run := some true } Fixtures.w0).2
        = (Fixtures.w0, [])
      ∧ (Scoop.uninstall_package "git" false { dry_run := some true } Fixtures.w0).2
          = (Fixtures.w0, [])
      ∧ (Scoop.install_scoop { dry_run := some true } Fixtures.w0).2
          = (Fixtures.w0, []) := by
  have h := c4_dry_run_effect_free "git" false { dry_run := some true }
    { dry_run := some true } Fixtures.w0 rfl rfl
  exact ⟨h.1.1, h.2.1.1, h.2.2.1⟩

/-- C10 witness: the `status` action is in the allow-list, requires a
config, and a no-request call fails with `ConfigRequired`. -/
theorem c10_witness :
    "status" ∈ Winsw.ALLOWED_ACTIONS
      ∧ Winsw.requires_config "status" = true
      ∧ Winsw.winsw_action Fixtures.fsNone Fixtures.noEnv (.error "unused") "status" none
          = (Winsw.ActionResp.failure (-1)
              (Winsw.WinswError.display (.ConfigRequired "status")), []) := by
  have hm : "status" ∈ Winsw.ALLOWED_ACTIONS := by decide
  have h := c10_all_actions_require_config "status" hm
  exact ⟨hm, h.1, h.2 Fixtures.fsNone Fixtures.noEnv (.error "unused")⟩

end VbenApp
